import Mathlib

/-!
Verification of the entry-validation and holding pipeline of the Holochain
core crate (`crates/core`), as a shallow embedding in Lean 4.

Embedded source files:
* `crates/core/src/nucleus/validation/mod.rs` — `validate_entry`,
  `process_validation_err`, `entry_to_validation_data`.
* `crates/core/src/network/handler/fetch.rs` — `handle_fetch_entry`,
  `fetch_aspects_for_entry`.
* `crates/core/src/network/actions/get_validation_package.rs` —
  `get_validation_package`, `GetValidationPackageFuture::poll`.
* `crates/core/src/state_dump.rs` — `StateDump::new`.

External collaborators (content store, signing service, sandbox callbacks,
the type-specific validator sub-modules, the `snowflake` id crate and the
network reducer) are modelled as explicit function parameters or, where the
specification is the only available description, as definitions whose doc
comment starts with `Modelled from the spec:`.
-/

namespace Holochain

/-- Opaque content address (`holochain_persistence_api::cas::content::Address`). -/
abbrev Address := String

/-- A provenance `(source agent address, signature)` attesting a header. -/
structure Provenance where
  source : Address
  signature : String
deriving DecidableEq, Repr

/-- Entry types (`holochain_core_types::entry::entry_type::EntryType`).
`linkList` stands in for the remaining system entry types that fall into the
`_ => NotImplemented` arm of `validate_entry`. -/
inductive EntryType where
  | dna
  | app (app_entry_type : String)
  | agentId
  | deletion
  | linkAdd
  | linkRemove
  | linkList
  | chainHeader
  | capTokenGrant
deriving DecidableEq, Repr

/-- Chain header (`holochain_core_types::chain_header::ChainHeader`).
Timestamps (Iso8601 in Rust, compared by its `PartialOrd`) are modelled as
naturals; the header's own content address (`ChainHeader::address()`) is
derived by a hash function passed as a parameter where needed. -/
structure ChainHeader where
  entry_type : EntryType
  entry_address : Address
  provenances : List Provenance
  link : Option Address
  link_same_type : Option Address
  link_update_delete : Option Address
  timestamp : Nat
deriving DecidableEq, Repr

/-- Entries (`holochain_core_types::entry::Entry`), a tagged union with the
payloads simplified to the data the embedded functions inspect. -/
inductive Entry where
  | dna (content : String)
  | agentId (nick : String)
  | app (app_entry_type : String) (value : String)
  | deletion (deleted_entry_address : Address)
  | linkAdd (link_data : String)
  | linkRemove (link_data : String) (links : List Address)
  | linkList (links : List Address)
  | chainHeader (serialized : String)
  | capTokenGrant (grant : String)
deriving DecidableEq, Repr

/-- `Entry::entry_type()`. -/
def Entry.entryType : Entry → EntryType
  | .dna _ => .dna
  | .agentId _ => .agentId
  | .app t _ => .app t
  | .deletion _ => .deletion
  | .linkAdd _ => .linkAdd
  | .linkRemove _ _ => .linkRemove
  | .linkList _ => .linkList
  | .chainHeader _ => .chainHeader
  | .capTokenGrant _ => .capTokenGrant

/-- Modelled from the spec: `holochain_core_types::error::HolochainError`
(the crate is not under `src/`); only the variants the embedded code
constructs or matches on are included. -/
inductive HolochainError where
  | ErrorGeneric (msg : String)
  | Timeout (msg : String)
  | ValidationFailed (reason : String)
  | ValidationPending
  | NotImplemented (msg : String)
  | EntryNotFoundLocally
  | InitializationFailed (msg : String)
deriving DecidableEq, Repr

/-- Rendering used where the Rust code formats an error with `{}`
(`Display`); the exact text of foreign errors is irrelevant to the claims,
only the prefix prepended by the embedded code matters. -/
def HolochainError.toMessage : HolochainError → String
  | .ErrorGeneric m => m
  | .Timeout m => "Timeout occured, got err: " ++ m
  | .ValidationFailed r => "Validation failed, got err: " ++ r
  | .ValidationPending => "Validation pending"
  | .NotImplemented m => "not implemented, got err: " ++ m
  | .EntryNotFoundLocally => "Entry not found locally"
  | .InitializationFailed m => m

/-- Discriminator for the `HolochainError::Timeout` pattern used by
`process_validation_err` and `entry_to_validation_data`. -/
def HolochainError.isTimeout : HolochainError → Bool
  | .Timeout _ => true
  | _ => false

/-- `ValidationError` from `nucleus/validation/mod.rs` (lines 21–41). -/
inductive ValidationError where
  | Fail (reason : String)
  | UnresolvedDependencies (deps : List Address)
  | NotImplemented
  | Error (e : HolochainError)
deriving DecidableEq, Repr

/-- `type ValidationResult = Result<(), ValidationError>`. -/
abbrev ValidationResult := Except ValidationError Unit

/-- `impl From<ValidationError> for HolochainError` (mod.rs lines 48–61). -/
def HolochainError.fromValidationError : ValidationError → HolochainError
  | .Fail reason => .ValidationFailed reason
  | .UnresolvedDependencies _ => .ValidationFailed "Missing dependencies"
  | .NotImplemented => .NotImplemented "Validation not implemented"
  | .Error e => e

/-- `ValidationContext` (mod.rs lines 65–68). -/
inductive ValidationContext where
  | Authoring
  | Holding
deriving DecidableEq, Repr

/-- `ValidationPackage` (`holochain_core_types::validation`): the header
plus optional source-chain entries and headers. -/
structure ValidationPackage where
  chain_header : ChainHeader
  source_chain_entries : Option (List Entry)
  source_chain_headers : Option (List ChainHeader)
deriving DecidableEq, Repr

/-- `ValidationData { package, sources }`. -/
structure ValidationData where
  package : ValidationPackage
  sources : List Address
deriving DecidableEq, Repr

/-- The temporal-pruning step of `validate_entry` (mod.rs lines 93–97):
`headers.retain(|header| header.timestamp() < t)` with
`t = validation_data.package.chain_header.timestamp()`. -/
def pruneValidationData (validation_data : ValidationData) : ValidationData :=
  match validation_data.package.source_chain_headers with
  | none => validation_data
  | some headers =>
    let t := validation_data.package.chain_header.timestamp
    { validation_data with
        package := { validation_data.package with
          source_chain_headers := some (headers.filter (fun header => header.timestamp < t)) } }

/-- Modelled from the spec: `header_address::validate_header_address`
(the `header_address` sub-module is not under `src/`): the hash of the entry
must equal `chain_header.entry_address`, otherwise
`Fail("header/entry mismatch")`. The content-hash function is a parameter. -/
def validate_header_address (hashEntry : Entry → Address) (entry : Entry)
    (chain_header : ChainHeader) : ValidationResult :=
  if hashEntry entry = chain_header.entry_address then .ok ()
  else .error (.Fail "header/entry mismatch")

/-- Modelled from the spec: `provenances::validate_provenances`
(the `provenances` sub-module is not under `src/`): every
`(agent, signature)` pair in the header's provenances must verify against
the agent's key and the header's canonical hash, otherwise
`Fail("invalid provenance")`. Verifier and header hash are parameters. -/
def validate_provenances (verify : Address → Address → String → Bool)
    (hashHeader : ChainHeader → Address) (validation_data : ValidationData) : ValidationResult :=
  let header := validation_data.package.chain_header
  if header.provenances.all (fun p => verify p.source (hashHeader header) p.signature)
  then .ok ()
  else .error (.Fail "invalid provenance")

/-- The type-specific validator sub-modules (`app_entry`, `link_entry`,
`remove_entry`, `agent_entry`), none of which are under `src/`; they are
kept abstract as parameters of `validate_entry`. -/
structure TypeValidators where
  validateAppEntry : Entry → String → Option Address → ValidationData → ValidationResult
  validateLinkEntry : Entry → ValidationData → ValidationContext → ValidationResult
  validateRemoveEntry : Entry → ValidationData → ValidationResult
  validateAgentEntry : Entry → ValidationData → ValidationResult

/-- Dispatch stage of `validate_entry` (mod.rs lines 99–155): header-address
check, then provenance check, then routing by entry type. The second
component of the result records which type-specific validator (and hence
sandbox callback chain) was invoked, so that non-invocation is provable. -/
def validate_entry_after_prune (hashEntry : Entry → Address)
    (hashHeader : ChainHeader → Address) (verify : Address → Address → String → Bool)
    (vs : TypeValidators) (entry : Entry) (link : Option Address)
    (validation_data : ValidationData) (validation_context : ValidationContext) :
    ValidationResult × List String :=
  match validate_header_address hashEntry entry validation_data.package.chain_header with
  | .error e => (.error e, [])
  | .ok _ =>
    match validate_provenances verify hashHeader validation_data with
    | .error e => (.error e, [])
    | .ok _ =>
      match entry.entryType with
      | .dna => (.ok (), [])
      | .app app_entry_type =>
          (vs.validateAppEntry entry app_entry_type link validation_data, ["validate_app_entry"])
      | .linkAdd =>
          (vs.validateLinkEntry entry validation_data validation_context, ["validate_link_entry"])
      | .linkRemove =>
          (vs.validateLinkEntry entry validation_data validation_context, ["validate_link_entry"])
      | .deletion =>
          (vs.validateRemoveEntry entry validation_data, ["validate_remove_entry"])
      | .capTokenGrant => (.ok (), [])
      | .agentId =>
          (vs.validateAgentEntry entry validation_data, ["validate_agent_entry"])
      | .chainHeader => (.ok (), [])
      | .linkList => (.error .NotImplemented, [])

/-- `validate_entry` (mod.rs lines 83–156): prune the validation package,
then run the dispatch stage. -/
def validate_entry (hashEntry : Entry → Address) (hashHeader : ChainHeader → Address)
    (verify : Address → Address → String → Bool) (vs : TypeValidators)
    (entry : Entry) (link : Option Address) (validation_data : ValidationData)
    (validation_context : ValidationContext) : ValidationResult × List String :=
  validate_entry_after_prune hashEntry hashHeader verify vs entry link
    (pruneValidationData validation_data) validation_context

/-- `process_validation_err` (mod.rs lines 159–205); the logging side
channel is omitted. -/
def process_validation_err : ValidationError → HolochainError
  | .UnresolvedDependencies _ => .ValidationPending
  | .Fail reason => HolochainError.fromValidationError (.Fail reason)
  | .Error (.Timeout _) => .ValidationPending
  | e => HolochainError.fromValidationError e

/-- `CrudStatus` carried by `EntryWithMeta`. -/
inductive CrudStatus where
  | Live
  | Rejected
  | Deleted
  | Modified
  | Locked
deriving DecidableEq, Repr

/-- `EntryWithMeta` (`holochain_core_types::entry`): the entry plus its CRUD
metadata, as returned by the get-entry workflow. -/
structure EntryWithMeta where
  entry : Entry
  crud_status : CrudStatus
  maybe_link_update_delete : Option Address
deriving DecidableEq, Repr

/-- `EntryValidationData<Entry>` (`holochain_core_types::validation`). -/
inductive EntryValidationData where
  | Create (entry : Entry) (validation_data : ValidationData)
  | Modify (old_entry : Entry) (new_entry : Entry) (old_entry_header : ChainHeader)
      (validation_data : ValidationData)
  | Delete (old_entry : Entry) (old_entry_header : ChainHeader)
      (validation_data : ValidationData)
deriving DecidableEq, Repr

/-- `entry_to_validation_data` (mod.rs lines 208–266). The helper
`get_entry_with_header` (mod.rs lines 269–284), which blocks on the external
`get_entry_with_meta_workflow`, is abstracted as the parameter
`get_entry_with_header`. -/
def entry_to_validation_data
    (get_entry_with_header : Address → Except HolochainError (EntryWithMeta × ChainHeader))
    (entry : Entry) (maybe_link_update_delete : Option Address)
    (validation_data : ValidationData) : Except HolochainError EntryValidationData :=
  match entry with
  | .app _ _ =>
    match maybe_link_update_delete with
    | some link_update =>
      match get_entry_with_header link_update with
      | .ok entry_with_header =>
          .ok (.Modify entry_with_header.1.entry entry entry_with_header.2 validation_data)
      | .error e =>
        match e with
        | .Timeout m => .error (.Timeout m)
        | _ => .error (.ErrorGeneric
            ("Could not find App Entry during validation, got err: " ++ e.toMessage))
    | none => .ok (.Create entry validation_data)
  | .deletion deletion_address =>
    match get_entry_with_header deletion_address with
    | .ok entry_with_header =>
        .ok (.Delete entry_with_header.1.entry entry_with_header.2 validation_data)
    | .error e =>
      match e with
      | .Timeout m => .error (.Timeout m)
      | _ => .error (.ErrorGeneric
          ("Could not find Delete Entry during validation, got err: " ++ e.toMessage))
  | .capTokenGrant _ => .ok (.Create entry validation_data)
  | _ => .error (.NotImplemented "Not implemented")

/-- `EntryAspect` (`holochain_core_types::network::entry_aspect`): a signed
fragment attributed to an entry. -/
inductive EntryAspect where
  | Content (entry : Entry) (header : ChainHeader)
  | Header (header : ChainHeader)
  | LinkAdd (link_data : String) (header : ChainHeader)
  | LinkRemove (link_data : String) (links : List Address) (header : ChainHeader)
  | Update (entry : Entry) (header : ChainHeader)
  | Deletion (header : ChainHeader)
deriving DecidableEq, Repr

/-- Inserting every element of a list into a `Finset`, mirroring the Rust
loops `aspects.insert(aspect)` over a `HashSet`. -/
def insertAll (l : List EntryAspect) (s : Finset EntryAspect) : Finset EntryAspect :=
  l.foldl (fun acc a => insert a acc) s

/-- `fetch_aspects_for_entry` (fetch.rs lines 26–64). The store queries
`get_content_aspects`, `get_meta_aspects_from_chain` and
`get_meta_aspects_from_dht_eav` live in `network/handler/mod.rs` (not under
`src/`) and are parameters; logging is omitted. A content failure returns
the empty set; each meta result is merged only when it is `Ok`. -/
def fetch_aspects_for_entry
    (get_content_aspects : Address → Except HolochainError (List EntryAspect))
    (get_meta_aspects_from_chain : Address → Except HolochainError (List EntryAspect))
    (get_meta_aspects_from_dht_eav : Address → Except HolochainError (List EntryAspect))
    (address : Address) : Finset EntryAspect :=
  match get_content_aspects address with
  | .ok content_aspects =>
    let aspects := insertAll content_aspects ∅
    let aspects :=
      match get_meta_aspects_from_chain address with
      | .ok meta_aspects => insertAll meta_aspects aspects
      | .error _ => aspects
    match get_meta_aspects_from_dht_eav address with
    | .ok meta_aspects => insertAll meta_aspects aspects
    | .error _ => aspects
  | .error _ => ∅

/-- `FetchEntryData` (`lib3h_protocol::data_types`): the inbound wire
request; `aspect_address_list` is the client-supplied filter. -/
structure FetchEntryData where
  request_id : String
  provider_agent_id : Address
  entry_address : Address
  aspect_address_list : Option (List Address)
deriving DecidableEq, Repr

/-- `handle_fetch_entry` (fetch.rs lines 17–24): compute the aspect set for
the requested entry address and dispatch `RespondFetch((request, aspects))`.
The dispatched pair is returned; Rust drains the `HashSet` into a `Vec` in
unspecified iteration order, so the payload is kept as the set. -/
def handle_fetch_entry
    (get_content_aspects : Address → Except HolochainError (List EntryAspect))
    (get_meta_aspects_from_chain : Address → Except HolochainError (List EntryAspect))
    (get_meta_aspects_from_dht_eav : Address → Except HolochainError (List EntryAspect))
    (get_dht_data : FetchEntryData) : FetchEntryData × Finset EntryAspect :=
  let entry_hash := get_dht_data.entry_address
  let aspect_set := fetch_aspects_for_entry get_content_aspects
    get_meta_aspects_from_chain get_meta_aspects_from_dht_eav entry_hash
  (get_dht_data, aspect_set)

/-- `ValidationKey` (`crate::action`): `(entry_address, request_id)`.
`snowflake::ProcessUniqueId` renders to a distinct string per id; its
process-unique token is modelled as a natural. -/
structure ValidationKey where
  address : Address
  id : Nat
deriving DecidableEq, Repr

/-- Modelled from the spec: `snowflake::ProcessUniqueId::new()` (an external
crate) mints a process-unique monotonic token; modelled as a counter
threaded through the process: it returns the current counter value and the
successor state. -/
def ProcessUniqueId.new (counter : Nat) : Nat × Nat :=
  (counter, counter + 1)

/-- Key-minting prefix of `get_validation_package`
(get_validation_package.rs lines 21–31): build the `ValidationKey` from the
header's entry address and a fresh process-unique id, returning the key to
be dispatched with `Action::GetValidationPackage` and the advanced counter
state. -/
def get_validation_package_key (header : ChainHeader) (counter : Nat) :
    ValidationKey × Nat :=
  let entry_address := header.entry_address
  let fresh := ProcessUniqueId.new counter
  ({ address := entry_address, id := fresh.1 }, fresh.2)

/-- `HcResult<Option<ValidationPackage>>`. -/
abbrev PackageResult := Except HolochainError (Option ValidationPackage)

/-- The slice of `state.network` that `GetValidationPackageFuture::poll`
reads: the `initialized()` predicate and the
`get_validation_package_results` table. The table is total over keys, with
`none` for an absent slot and `some none` for an outstanding one. -/
structure NetworkState where
  initialized : Except HolochainError Unit
  get_validation_package_results : ValidationKey → Option (Option PackageResult)

/-- Actions the embedded functions dispatch onto the action channel. -/
inductive NetAction where
  | GetValidationPackage (key : ValidationKey) (header : ChainHeader)
  | ClearValidationPackageResult (key : ValidationKey)
deriving DecidableEq, Repr

/-- Waker bookkeeping performed by `poll` through the context. -/
inductive WakerOp where
  | register (id : Nat)
  | unregister (id : Nat)
deriving DecidableEq, Repr

/-- `Poll` from `futures::task`. -/
inductive Poll (α : Type) where
  | Ready (a : α)
  | Pending
deriving DecidableEq, Repr

/-- `GetValidationPackageFuture::poll` (get_validation_package.rs
lines 54–85) as a pure function of the observable context: the action
channel error (if any), the optional composite-state read (`try_state`),
and the future's own `key` and waker `id`. It returns the poll outcome, the
actions dispatched during this poll and the waker operations performed. -/
def GetValidationPackageFuture.poll (channel_error : Option HolochainError)
    (try_state : Option NetworkState) (key : ValidationKey) (id : Nat) :
    Poll PackageResult × List NetAction × List WakerOp :=
  match channel_error with
  | some err => (.Ready (.error err), [], [])
  | none =>
    match try_state with
    | some state =>
      match state.initialized with
      | .error error => (.Ready (.error error), [], [.register id])
      | .ok _ =>
        match state.get_validation_package_results key with
        | some (some result) =>
            (.Ready result, [.ClearValidationPackageResult key],
              [.register id, .unregister id])
        | _ => (.Pending, [], [.register id])
    | none => (.Pending, [], [.register id])

/-- Modelled from the spec: the network reducer's handling of
`ClearValidationPackageResult(key)` (the reducers are not under `src/`)
frees the slot, so the key is no longer contained in
`get_validation_package_results`. -/
def clearValidationPackageResult (key : ValidationKey) (state : NetworkState) :
    NetworkState :=
  { state with
      get_validation_package_results :=
        Function.update state.get_validation_package_results key none }

/-- `EntryWithHeader` (`crate::network::entry_with_header`). -/
structure EntryWithHeader where
  entry : Entry
  header : ChainHeader
deriving DecidableEq, Repr

/-- The slice of the agent state that `StateDump::new` reads: the chain
headers in `iter_chain()` order and the chain store's
`get : Address → Result<Option<Entry>>`. -/
structure AgentState where
  chainHeaders : List ChainHeader
  chainStoreGet : Address → Except HolochainError (Option Entry)

/-- Entity-attribute-value index records, kept opaque: `StateDump` only
copies them. -/
abbrev Eavi := String

/-- The slice of the DHT state that `StateDump::new` reads: the result of
`fetch_eavi` on the fixed full-range query. -/
structure DhtState where
  fetchEavi : Except HolochainError (List Eavi)

/-- The slices of the composite state that the modelled `StateDump` fields
are projected from. The nucleus and network components feed only the
diagnostic fields not modelled here. -/
structure CompositeState where
  agent : AgentState
  dht : DhtState

/-- `DumpOptions` (state_dump.rs lines 38–41). -/
structure DumpOptions where
  include_eavis : Bool
deriving DecidableEq, Repr

/-- The `StateDump` fields the claims are about; the remaining diagnostic
copies (zome-call queues, network in-flight tables, DHT pending queues,
held aspects) are straight clones of the corresponding state components and
are omitted. -/
structure StateDump where
  source_chain : List (EntryWithHeader × Address)
  eavis : Option (List Eavi)
deriving DecidableEq, Repr

/-- The `source_chain` projection of `StateDump::new` (state_dump.rs
lines 55–75) on an already reversed header list: for each header, look the
entry up in the chain store — the two `unwrap()`s panic (modelled as `none`)
when the lookup errors or finds nothing — and keep
`(EntryWithHeader, header.address())` except for the DNA entry, which is
dropped. -/
def buildSourceChainAux (hashHeader : ChainHeader → Address)
    (chainStoreGet : Address → Except HolochainError (Option Entry)) :
    List ChainHeader → Option (List (EntryWithHeader × Address))
  | [] => some []
  | header :: rest =>
    match chainStoreGet header.entry_address with
    | .error _ => none
    | .ok none => none
    | .ok (some entry) =>
      match buildSourceChainAux hashHeader chainStoreGet rest with
      | none => none
      | some tail =>
        if entry.entryType = .dna then some tail
        else some (({ entry := entry, header := header }, hashHeader header) :: tail)

/-- The full `source_chain` computation: collect `iter_chain()`, reverse,
then build the pairs. -/
def buildSourceChain (hashHeader : ChainHeader → Address) (agent : AgentState) :
    Option (List (EntryWithHeader × Address)) :=
  buildSourceChainAux hashHeader agent.chainStoreGet agent.chainHeaders.reverse

/-- `StateDump::new` (state_dump.rs lines 44–149) restricted to the
modelled fields, with panics made explicit as `none`: `expect("No state?!")`
when the composite state is absent, the chain-store `unwrap()`s inside the
source-chain projection, and `expect("should be ok")` when `include_eavis`
is set and `fetch_eavi` fails. -/
def StateDump.new (hashHeader : ChainHeader → Address)
    (maybe_state : Option CompositeState) (options : DumpOptions) :
    Option StateDump :=
  match maybe_state with
  | none => none
  | some state =>
    match buildSourceChain hashHeader state.agent with
    | none => none
    | some source_chain =>
      if options.include_eavis then
        match state.dht.fetchEavi with
        | .error _ => none
        | .ok eavis => some { source_chain := source_chain, eavis := some eavis }
      else
        some { source_chain := source_chain, eavis := none }

/-- Pruning leaves the package's `chain_header` untouched. -/
theorem pruneValidationData_chain_header (d : ValidationData) :
    (pruneValidationData d).package.chain_header = d.package.chain_header := by
  unfold pruneValidationData
  cases d.package.source_chain_headers <;> rfl

/-- Type validators that accept everything, used as concrete instantiations. -/
def trivialValidators : TypeValidators where
  validateAppEntry := fun _ _ _ _ => .ok ()
  validateLinkEntry := fun _ _ _ => .ok ()
  validateRemoveEntry := fun _ _ => .ok ()
  validateAgentEntry := fun _ _ => .ok ()

/-- Concrete header used by the witnesses. -/
def sampleHeader : ChainHeader :=
  { entry_type := .app "post", entry_address := "QmEntry",
    provenances := [{ source := "agent1", signature := "sig1" }],
    link := some "QmPrev", link_same_type := none, link_update_delete := none,
    timestamp := 3 }

/-- Concrete older header used by the witnesses. -/
def sampleOldHeader : ChainHeader :=
  { entry_type := .app "post", entry_address := "QmOld",
    provenances := [{ source := "agent1", signature := "sig0" }],
    link := none, link_same_type := none, link_update_delete := none,
    timestamp := 1 }

/-- Concrete newer header used by the witnesses. -/
def sampleNewHeader : ChainHeader :=
  { entry_type := .app "post", entry_address := "QmNew",
    provenances := [{ source := "agent1", signature := "sig2" }],
    link := none, link_same_type := none, link_update_delete := none,
    timestamp := 5 }

/-- Concrete validation data used by the witnesses: the package carries one
header older and one header newer than the package's `chain_header`. -/
def sampleData : ValidationData :=
  { package :=
      { chain_header := sampleHeader,
        source_chain_entries := none,
        source_chain_headers := some [sampleOldHeader, sampleNewHeader] },
    sources := ["agent1"] }

/-- C1: whenever the hash of the entry differs from
`data.package.chain_header.entry_address`, `validate_entry` returns
`Err(Fail("header/entry mismatch"))` and invokes no type-specific validator
(hence no sandbox callback). -/
theorem validate_entry_header_mismatch
    (hashEntry : Entry → Address) (hashHeader : ChainHeader → Address)
    (verify : Address → Address → String → Bool) (vs : TypeValidators)
    (entry : Entry) (link : Option Address) (validation_data : ValidationData)
    (validation_context : ValidationContext)
    (hmismatch : hashEntry entry ≠ validation_data.package.chain_header.entry_address) :
    validate_entry hashEntry hashHeader verify vs entry link validation_data
        validation_context
      = (.error (.Fail "header/entry mismatch"), []) := by
  unfold validate_entry validate_entry_after_prune validate_header_address
  rw [pruneValidationData_chain_header]
  simp [hmismatch]

/-- Witness for C1 at a concrete mismatching entry. -/
theorem validate_entry_header_mismatch_witness :
    (fun _ : Entry => "QmOther") (Entry.app "post" "hi")
        ≠ sampleData.package.chain_header.entry_address ∧
    validate_entry (fun _ => "QmOther") (fun _ => "QmHeaderHash") (fun _ _ _ => true)
        trivialValidators (Entry.app "post" "hi") none sampleData .Authoring
      = (.error (.Fail "header/entry mismatch"), []) :=
  ⟨by decide,
   validate_entry_header_mismatch (fun _ => "QmOther") (fun _ => "QmHeaderHash")
     (fun _ _ _ => true) trivialValidators (Entry.app "post" "hi") none sampleData
     .Authoring (by decide)⟩

/-- C2: for a package with `Some(source_chain_headers)`, the pruning step of
`validate_entry` keeps exactly the headers whose timestamp is strictly
smaller than the package header's timestamp, and `validate_entry` runs the
header check, provenance check and type dispatch on the pruned data. -/
theorem validate_entry_prunes_headers
    (validation_data : ValidationData) (headers : List ChainHeader)
    (hsome : validation_data.package.source_chain_headers = some headers) :
    ∃ headers',
      (pruneValidationData validation_data).package.source_chain_headers = some headers' ∧
      (∀ h ∈ headers', h.timestamp < validation_data.package.chain_header.timestamp) ∧
      (∀ h ∈ headers,
        h.timestamp < validation_data.package.chain_header.timestamp → h ∈ headers') ∧
      (∀ hashEntry hashHeader verify vs entry link validation_context,
        validate_entry hashEntry hashHeader verify vs entry link validation_data
            validation_context
          = validate_entry_after_prune hashEntry hashHeader verify vs entry link
              (pruneValidationData validation_data) validation_context) := by
  refine ⟨headers.filter
      (fun header => header.timestamp < validation_data.package.chain_header.timestamp),
    ?_, ?_, ?_, ?_⟩
  · unfold pruneValidationData
    rw [hsome]
  · intro h hmem
    simpa using (List.mem_filter.mp hmem).2
  · intro h hmem hlt
    exact List.mem_filter.mpr ⟨hmem, by simpa using hlt⟩
  · intro _ _ _ _ _ _ _
    rfl

/-- Witness for C2 at the concrete sample data: the newer header is pruned,
the older one kept. -/
theorem validate_entry_prunes_headers_witness :
    sampleData.package.source_chain_headers = some [sampleOldHeader, sampleNewHeader] ∧
    ∃ headers',
      (pruneValidationData sampleData).package.source_chain_headers = some headers' ∧
      (∀ h ∈ headers', h.timestamp < sampleData.package.chain_header.timestamp) ∧
      (∀ h ∈ [sampleOldHeader, sampleNewHeader],
        h.timestamp < sampleData.package.chain_header.timestamp → h ∈ headers') ∧
      (∀ hashEntry hashHeader verify vs entry link validation_context,
        validate_entry hashEntry hashHeader verify vs entry link sampleData
            validation_context
          = validate_entry_after_prune hashEntry hashHeader verify vs entry link
              (pruneValidationData sampleData) validation_context) :=
  ⟨rfl, validate_entry_prunes_headers sampleData [sampleOldHeader, sampleNewHeader] rfl⟩

/-- C3: `process_validation_err` maps `UnresolvedDependencies` and
`Error(Timeout(_))` to `ValidationPending`, `Fail(r)` to
`ValidationFailed(r)`, and surfaces every other `Error(inner)` as `inner`
unchanged. -/
theorem process_validation_err_escalation (deps : List Address) (reason m : String)
    (inner : HolochainError) (hnt : inner.isTimeout = false) :
    process_validation_err (.UnresolvedDependencies deps) = .ValidationPending ∧
    process_validation_err (.Error (.Timeout m)) = .ValidationPending ∧
    process_validation_err (.Fail reason) = .ValidationFailed reason ∧
    process_validation_err (.Error inner) = inner := by
  refine ⟨rfl, rfl, rfl, ?_⟩
  cases inner <;> first
    | rfl
    | simp [HolochainError.isTimeout] at hnt

/-- Witness for C3 at concrete errors. -/
theorem process_validation_err_escalation_witness :
    (HolochainError.ErrorGeneric "boom").isTimeout = false ∧
    process_validation_err (.UnresolvedDependencies ["QmDep"]) = .ValidationPending ∧
    process_validation_err (.Error (.Timeout "5s")) = .ValidationPending ∧
    process_validation_err (.Fail "bad entry") = .ValidationFailed "bad entry" ∧
    process_validation_err (.Error (.ErrorGeneric "boom")) = .ErrorGeneric "boom" :=
  ⟨rfl, process_validation_err_escalation ["QmDep"] "bad entry" "5s"
    (.ErrorGeneric "boom") rfl⟩

/-- C4: for App entries, `entry_to_validation_data` with a link builds
`Modify` from a successful fetch, propagates a `Timeout` fetch failure
unchanged, collapses any other fetch failure to the generic
"Could not find App Entry during validation" error, and without a link
builds `Create`. -/
theorem entry_to_validation_data_app
    (get_entry_with_header : Address → Except HolochainError (EntryWithMeta × ChainHeader))
    (app_entry_type value : String) (link : Address) (validation_data : ValidationData)
    (old : EntryWithMeta) (old_header : ChainHeader) (m : String) (e : HolochainError) :
    (get_entry_with_header link = .ok (old, old_header) →
      entry_to_validation_data get_entry_with_header (.app app_entry_type value)
          (some link) validation_data
        = .ok (.Modify old.entry (.app app_entry_type value) old_header validation_data)) ∧
    (get_entry_with_header link = .error (.Timeout m) →
      entry_to_validation_data get_entry_with_header (.app app_entry_type value)
          (some link) validation_data
        = .error (.Timeout m)) ∧
    (get_entry_with_header link = .error e → e.isTimeout = false →
      entry_to_validation_data get_entry_with_header (.app app_entry_type value)
          (some link) validation_data
        = .error (.ErrorGeneric
            ("Could not find App Entry during validation, got err: " ++ e.toMessage))) ∧
    entry_to_validation_data get_entry_with_header (.app app_entry_type value)
        none validation_data
      = .ok (.Create (.app app_entry_type value) validation_data) := by
  refine ⟨?_, ?_, ?_, rfl⟩
  · intro hok
    simp only [entry_to_validation_data]
    rw [hok]
  · intro htimeout
    simp only [entry_to_validation_data]
    rw [htimeout]
  · intro herr hnt
    simp only [entry_to_validation_data]
    rw [herr]
    cases e <;> first
      | rfl
      | simp [HolochainError.isTimeout] at hnt

/-- Witness for C4 at three concrete fetch outcomes plus the link-free case. -/
theorem entry_to_validation_data_app_witness :
    (fun _ : Address =>
        (.ok ({ entry := .app "post" "old", crud_status := .Live,
                maybe_link_update_delete := none }, sampleOldHeader) :
          Except HolochainError (EntryWithMeta × ChainHeader))) "QmOld"
      = .ok ({ entry := .app "post" "old", crud_status := .Live,
               maybe_link_update_delete := none }, sampleOldHeader) ∧
    entry_to_validation_data
        (fun _ => .ok ({ entry := .app "post" "old", crud_status := .Live,
                         maybe_link_update_delete := none }, sampleOldHeader))
        (.app "post" "hi") (some "QmOld") sampleData
      = .ok (.Modify (.app "post" "old") (.app "post" "hi") sampleOldHeader sampleData) ∧
    entry_to_validation_data (fun _ => .error (.Timeout "5s"))
        (.app "post" "hi") (some "QmOld") sampleData
      = .error (.Timeout "5s") ∧
    entry_to_validation_data (fun _ => .error (.ErrorGeneric "boom"))
        (.app "post" "hi") (some "QmOld") sampleData
      = .error (.ErrorGeneric
          ("Could not find App Entry during validation, got err: " ++ "boom")) ∧
    entry_to_validation_data (fun _ => .error (.ErrorGeneric "boom"))
        (.app "post" "hi") none sampleData
      = .ok (.Create (.app "post" "hi") sampleData) :=
  ⟨rfl,
   (entry_to_validation_data_app
      (fun _ => .ok ({ entry := .app "post" "old", crud_status := .Live,
                       maybe_link_update_delete := none }, sampleOldHeader))
      "post" "hi" "QmOld" sampleData
      { entry := .app "post" "old", crud_status := .Live,
        maybe_link_update_delete := none }
      sampleOldHeader "5s" (.ErrorGeneric "boom")).1 rfl,
   (entry_to_validation_data_app (fun _ => .error (.Timeout "5s"))
      "post" "hi" "QmOld" sampleData
      { entry := .app "post" "old", crud_status := .Live,
        maybe_link_update_delete := none }
      sampleOldHeader "5s" (.ErrorGeneric "boom")).2.1 rfl,
   (entry_to_validation_data_app (fun _ => .error (.ErrorGeneric "boom"))
      "post" "hi" "QmOld" sampleData
      { entry := .app "post" "old", crud_status := .Live,
        maybe_link_update_delete := none }
      sampleOldHeader "5s" (.ErrorGeneric "boom")).2.2.1 rfl rfl,
   (entry_to_validation_data_app (fun _ => .error (.ErrorGeneric "boom"))
      "post" "hi" "QmOld" sampleData
      { entry := .app "post" "old", crud_status := .Live,
        maybe_link_update_delete := none }
      sampleOldHeader "5s" (.ErrorGeneric "boom")).2.2.2⟩

/-- Membership in `insertAll`: exactly the elements of the list and of the
starting set. -/
theorem mem_insertAll (a : EntryAspect) (l : List EntryAspect) (s : Finset EntryAspect) :
    a ∈ insertAll l s ↔ a ∈ l ∨ a ∈ s := by
  induction l generalizing s with
  | nil => simp [insertAll]
  | cons x xs ih =>
    show a ∈ insertAll xs (insert x s) ↔ a ∈ x :: xs ∨ a ∈ s
    rw [ih]
    simp [Finset.mem_insert, List.mem_cons]
    tauto

/-- C5: the set returned by `fetch_aspects_for_entry` contains exactly the
union of the content aspects and the successfully retrieved meta aspects
(chain-derived and DHT-EAV); a content failure yields the empty set, and a
failing meta query drops nothing that was already collected. -/
theorem fetch_aspects_for_entry_complete
    (get_content_aspects : Address → Except HolochainError (List EntryAspect))
    (get_meta_aspects_from_chain : Address → Except HolochainError (List EntryAspect))
    (get_meta_aspects_from_dht_eav : Address → Except HolochainError (List EntryAspect))
    (address : Address) (a : EntryAspect) :
    a ∈ fetch_aspects_for_entry get_content_aspects get_meta_aspects_from_chain
        get_meta_aspects_from_dht_eav address ↔
      ∃ content_aspects, get_content_aspects address = .ok content_aspects ∧
        (a ∈ content_aspects ∨
         (∃ meta, get_meta_aspects_from_chain address = .ok meta ∧ a ∈ meta) ∨
         (∃ meta, get_meta_aspects_from_dht_eav address = .ok meta ∧ a ∈ meta)) := by
  unfold fetch_aspects_for_entry
  cases hc : get_content_aspects address with
  | error e => simp
  | ok content_aspects =>
    cases hm1 : get_meta_aspects_from_chain address with
    | ok meta1 =>
      cases hm2 : get_meta_aspects_from_dht_eav address with
      | ok meta2 =>
        simp [mem_insertAll]
        tauto
      | error e2 =>
        simp [mem_insertAll]
        tauto
    | error e1 =>
      cases hm2 : get_meta_aspects_from_dht_eav address with
      | ok meta2 =>
        simp [mem_insertAll]
        tauto
      | error e2 =>
        simp [mem_insertAll]

/-- C6: when `poll` finds `get_validation_package_results[key] =
Some(Some(result))`, it dispatches `ClearValidationPackageResult(key)` and
completes with `result` (unregistering its waker); applying that clear
action removes the key from the table, so after a successful retrieval the
slot is gone. -/
theorem poll_clears_result_on_success (state : NetworkState) (key : ValidationKey)
    (id : Nat) (result : PackageResult)
    (hinit : state.initialized = .ok ())
    (hres : state.get_validation_package_results key = some (some result)) :
    GetValidationPackageFuture.poll none (some state) key id
      = (.Ready result, [.ClearValidationPackageResult key],
          [.register id, .unregister id]) ∧
    (clearValidationPackageResult key state).get_validation_package_results key
      = none := by
  constructor
  · simp only [GetValidationPackageFuture.poll]
    rw [hinit, hres]
  · simp [clearValidationPackageResult]

/-- Concrete validation key used by the witnesses. -/
def sampleKey : ValidationKey := { address := "QmEntry", id := 7 }

/-- Concrete network state holding a finished result for `sampleKey`. -/
def sampleNetworkState : NetworkState :=
  { initialized := .ok (),
    get_validation_package_results := fun key =>
      if key = sampleKey then some (some (.ok none)) else none }

/-- Witness for C6 at the concrete network state. -/
theorem poll_clears_result_on_success_witness :
    sampleNetworkState.initialized = .ok () ∧
    sampleNetworkState.get_validation_package_results sampleKey
      = some (some (.ok none)) ∧
    (GetValidationPackageFuture.poll none (some sampleNetworkState) sampleKey 42
        = (.Ready (.ok none), [.ClearValidationPackageResult sampleKey],
            [.register 42, .unregister 42]) ∧
     (clearValidationPackageResult sampleKey
         sampleNetworkState).get_validation_package_results sampleKey = none) :=
  ⟨rfl, by simp [sampleNetworkState],
   poll_clears_result_on_success sampleNetworkState sampleKey 42 (.ok none) rfl
     (by simp [sampleNetworkState])⟩

/-- C7: two successive mints in `get_validation_package` — even for the
same entry address — produce keys with distinct `request_id`s, hence
distinct `ValidationKey`s, and writing one key's slot leaves the other
key's slot untouched. -/
theorem get_validation_package_keys_distinct (header header' : ChainHeader)
    (counter : Nat) (results : ValidationKey → Option (Option PackageResult))
    (v : Option (Option PackageResult)) :
    (get_validation_package_key header counter).1.id
        ≠ (get_validation_package_key header'
            (get_validation_package_key header counter).2).1.id ∧
    (get_validation_package_key header counter).1
        ≠ (get_validation_package_key header'
            (get_validation_package_key header counter).2).1 ∧
    Function.update results
        (get_validation_package_key header'
          (get_validation_package_key header counter).2).1 v
        (get_validation_package_key header counter).1
      = results (get_validation_package_key header counter).1 := by
  have hid : (get_validation_package_key header counter).1.id
      ≠ (get_validation_package_key header'
          (get_validation_package_key header counter).2).1.id := by
    simp [get_validation_package_key, ProcessUniqueId.new]
  have hkey : (get_validation_package_key header counter).1
      ≠ (get_validation_package_key header'
          (get_validation_package_key header counter).2).1 :=
    fun h => hid (congrArg ValidationKey.id h)
  exact ⟨hid, hkey, Function.update_noteq hkey v results⟩

/-- C8: the aspect set dispatched by `handle_fetch_entry` depends only on
the requested `entry_address` and the store state; the client-supplied
`aspect_address_list` filter is ignored. -/
theorem handle_fetch_entry_ignores_aspect_list
    (get_content_aspects : Address → Except HolochainError (List EntryAspect))
    (get_meta_aspects_from_chain : Address → Except HolochainError (List EntryAspect))
    (get_meta_aspects_from_dht_eav : Address → Except HolochainError (List EntryAspect))
    (request1 request2 : FetchEntryData)
    (haddr : request1.entry_address = request2.entry_address) :
    (handle_fetch_entry get_content_aspects get_meta_aspects_from_chain
        get_meta_aspects_from_dht_eav request1).2
      = (handle_fetch_entry get_content_aspects get_meta_aspects_from_chain
          get_meta_aspects_from_dht_eav request2).2 := by
  simp only [handle_fetch_entry]
  rw [haddr]

/-- Witness for C8: two requests for the same entry, one without a filter
and one with a non-trivial filter, yield the same aspect set. -/
theorem handle_fetch_entry_ignores_aspect_list_witness :
    ({ request_id := "r1", provider_agent_id := "agent1", entry_address := "QmEntry",
       aspect_address_list := none } : FetchEntryData).entry_address
      = ({ request_id := "r2", provider_agent_id := "agent2", entry_address := "QmEntry",
           aspect_address_list := some ["QmAspect1"] } : FetchEntryData).entry_address ∧
    (handle_fetch_entry (fun _ => .ok [.Content (.app "post" "hi") sampleHeader])
        (fun _ => .ok [.Header sampleHeader]) (fun _ => .error .EntryNotFoundLocally)
        { request_id := "r1", provider_agent_id := "agent1", entry_address := "QmEntry",
          aspect_address_list := none }).2
      = (handle_fetch_entry (fun _ => .ok [.Content (.app "post" "hi") sampleHeader])
          (fun _ => .ok [.Header sampleHeader]) (fun _ => .error .EntryNotFoundLocally)
          { request_id := "r2", provider_agent_id := "agent2", entry_address := "QmEntry",
            aspect_address_list := some ["QmAspect1"] }).2 :=
  ⟨rfl,
   handle_fetch_entry_ignores_aspect_list
     (fun _ => .ok [.Content (.app "post" "hi") sampleHeader])
     (fun _ => .ok [.Header sampleHeader]) (fun _ => .error .EntryNotFoundLocally)
     { request_id := "r1", provider_agent_id := "agent1", entry_address := "QmEntry",
       aspect_address_list := none }
     { request_id := "r2", provider_agent_id := "agent2", entry_address := "QmEntry",
       aspect_address_list := some ["QmAspect1"] } rfl⟩

/-- On a chain store where every lookup succeeds, the source-chain builder
is the filter of non-DNA headers mapped to their entry/header pairs. -/
theorem buildSourceChainAux_total (hashHeader : ChainHeader → Address)
    (entryOf : Address → Entry) (hs : List ChainHeader) :
    buildSourceChainAux hashHeader (fun address => .ok (some (entryOf address))) hs
      = some ((hs.filter
            (fun header => ¬ (entryOf header.entry_address).entryType = .dna)).map
          (fun header =>
            ({ entry := entryOf header.entry_address, header := header },
              hashHeader header))) := by
  induction hs with
  | nil => rfl
  | cons header rest ih =>
    simp only [buildSourceChainAux, ih, List.filter_cons]
    by_cases hd : (entryOf header.entry_address).entryType = .dna <;>
      simp [hd]

/-- C9: on every successful run of `StateDump::new`, the `source_chain`
field lists the agent's chain in reverse `iter_chain()` order, drops the
DNA entry, and pairs every other header with its entry and its header
address. -/
theorem state_dump_source_chain (hashHeader : ChainHeader → Address)
    (entryOf : Address → Entry) (state : CompositeState) (options : DumpOptions)
    (dump : StateDump)
    (hget : state.agent.chainStoreGet = fun address => .ok (some (entryOf address)))
    (hnew : StateDump.new hashHeader (some state) options = some dump) :
    dump.source_chain
      = ((state.agent.chainHeaders.reverse.filter
            (fun header => ¬ (entryOf header.entry_address).entryType = .dna)).map
          (fun header =>
            ({ entry := entryOf header.entry_address, header := header },
              hashHeader header))) := by
  have hb : buildSourceChain hashHeader state.agent
      = some ((state.agent.chainHeaders.reverse.filter
            (fun header => ¬ (entryOf header.entry_address).entryType = .dna)).map
          (fun header =>
            ({ entry := entryOf header.entry_address, header := header },
              hashHeader header))) := by
    unfold buildSourceChain
    rw [hget]
    exact buildSourceChainAux_total hashHeader entryOf state.agent.chainHeaders.reverse
  simp only [StateDump.new, hb] at hnew
  by_cases hopt : options.include_eavis
  · rw [if_pos hopt] at hnew
    cases hfe : state.dht.fetchEavi with
    | error e =>
      rw [hfe] at hnew
      exact absurd hnew (by simp)
    | ok eavis =>
      rw [hfe] at hnew
      have := Option.some.inj hnew
      rw [← this]
  · rw [if_neg hopt] at hnew
    have := Option.some.inj hnew
    rw [← this]

/-- Concrete entry lookup used by the C9 witness: the DNA address resolves
to a DNA entry, everything else to an app entry. -/
def sampleEntryOf : Address → Entry := fun address =>
  if address = "QmDnaEntry" then .dna "dna-content" else .app "post" "hi"

/-- Concrete DNA header used by the C9 witness. -/
def sampleDnaHeader : ChainHeader :=
  { entry_type := .dna, entry_address := "QmDnaEntry",
    provenances := [{ source := "agent1", signature := "sigD" }],
    link := none, link_same_type := none, link_update_delete := none,
    timestamp := 0 }

/-- Concrete composite state used by the C9 witness: a two-header chain in
`iter_chain()` order and a chain store where every lookup succeeds. -/
def sampleCompositeState : CompositeState :=
  { agent :=
      { chainHeaders := [sampleHeader, sampleDnaHeader],
        chainStoreGet := fun address => .ok (some (sampleEntryOf address)) },
    dht := { fetchEavi := .ok ["eavi1"] } }

/-- Concrete header hash used by the witnesses. -/
def sampleHashHeader : ChainHeader → Address := fun header =>
  "Hash:" ++ header.entry_address

/-- Witness for C9 at the concrete two-header chain: the DNA pair is
dropped and the app header appears with its entry and header address. -/
theorem state_dump_source_chain_witness :
    sampleCompositeState.agent.chainStoreGet
        = (fun address => .ok (some (sampleEntryOf address))) ∧
    StateDump.new sampleHashHeader (some sampleCompositeState)
        { include_eavis := false }
      = some { source_chain :=
                 [({ entry := .app "post" "hi", header := sampleHeader },
                   "Hash:QmEntry")],
               eavis := none } ∧
    ({ source_chain :=
         [({ entry := .app "post" "hi", header := sampleHeader }, "Hash:QmEntry")],
       eavis := none } : StateDump).source_chain
      = ((sampleCompositeState.agent.chainHeaders.reverse.filter
            (fun header =>
              ¬ (sampleEntryOf header.entry_address).entryType = .dna)).map
          (fun header =>
            ({ entry := sampleEntryOf header.entry_address, header := header },
              sampleHashHeader header))) :=
  ⟨rfl, by decide,
   state_dump_source_chain sampleHashHeader sampleEntryOf sampleCompositeState
     { include_eavis := false }
     { source_chain :=
         [({ entry := .app "post" "hi", header := sampleHeader }, "Hash:QmEntry")],
       eavis := none }
     rfl (by decide)⟩

/-- Composite state whose chain store errors on every lookup. -/
def sampleBadStoreState : CompositeState :=
  { agent :=
      { chainHeaders := [sampleHeader],
        chainStoreGet := fun _ => .error .EntryNotFoundLocally },
    dht := { fetchEavi := .ok [] } }

/-- Composite state whose chain store finds nothing for a header. -/
def sampleMissingEntryState : CompositeState :=
  { agent :=
      { chainHeaders := [sampleHeader],
        chainStoreGet := fun _ => .ok none },
    dht := { fetchEavi := .ok [] } }

/-- Composite state whose EAV query fails. -/
def sampleBadEaviState : CompositeState :=
  { agent :=
      { chainHeaders := [],
        chainStoreGet := fun address => .ok (some (sampleEntryOf address)) },
    dht := { fetchEavi := .error (.ErrorGeneric "eav backend down") } }

/-- C10: `StateDump::new` is partial at its public interface: it panics
(modelled as `none`) when the composite state is absent, when a header's
entry is not retrievable from the chain store (lookup error or lookup
miss), and, with `include_eavis = true`, when the EAV query fails. -/
theorem state_dump_new_partial :
    StateDump.new sampleHashHeader none { include_eavis := false } = none ∧
    StateDump.new sampleHashHeader (some sampleBadStoreState)
        { include_eavis := false } = none ∧
    StateDump.new sampleHashHeader (some sampleMissingEntryState)
        { include_eavis := false } = none ∧
    StateDump.new sampleHashHeader (some sampleBadEaviState)
        { include_eavis := true } = none :=
  ⟨rfl, rfl, rfl, rfl⟩

end Holochain
